import Mathlib

set_option maxHeartbeats 1000000

/-!
Verification development for the `mcp_ui_server` Python SDK
(`src/sdks/python/server/src/mcp_ui_server/`).

The Python code is shallowly embedded: JSON values (the input dicts and the
output of `json.loads` / `model_dump_json`) become an inductive `Json` type,
pydantic model validation becomes explicit validation functions, exceptions
become `Except` error values, and `base64.b64encode` / `str.encode` become
executable codecs on `List Nat` byte sequences.
-/

/-- A JSON value, as produced by `json.loads` and consumed by pydantic
`model_validate`.  Objects are association lists of key/value pairs in
insertion order (Python dicts preserve insertion order and have unique keys). -/
inductive Json where
  | null : Json
  | bool (b : Bool) : Json
  | num (n : Int) : Json
  | str (s : String) : Json
  | arr (elems : List Json) : Json
  | obj (fields : List (String × Json)) : Json

/-- Dictionary lookup `d[key]` / `key in d` on a JSON object's fields:
first match wins (keys of a Python dict are unique, so this agrees with
dict lookup on any object coming from `json.loads` or `model_dump`). -/
def alookup : List (String × Json) → String → Option Json
  | [], _ => none
  | (k, v) :: rest, key => if key = k then some v else alookup rest key

/-- The discriminated content union of `types.py`
(`RawHtmlPayload | ExternalUrlPayload | RemoteDomPayload`), as it exists
after pydantic validation.  `framework` stays a plain string (a `Literal`
annotated `str` at runtime), so the defensive re-check inside
`create_ui_resource` remains a real branch of the embedding. -/
inductive ResourceContentPayload where
  | rawHtml (htmlString : String)
  | externalUrl (iframeUrl : String)
  | remoteDom (script : String) (framework : String)
deriving DecidableEq

/-- The `type` literal field carried by each payload class
(`Literal["rawHtml"]`, `Literal["externalUrl"]`, `Literal["remoteDom"]`). -/
def ResourceContentPayload.type : ResourceContentPayload → String
  | .rawHtml _ => "rawHtml"
  | .externalUrl _ => "externalUrl"
  | .remoteDom _ _ => "remoteDom"

/-- The semantic content string of a payload
(`htmlString` / `iframeUrl` / `script`). -/
def contentString : ResourceContentPayload → String
  | .rawHtml h => h
  | .externalUrl u => u
  | .remoteDom s _ => s

/-- Structure `CreateUIResourceOptions` of `types.py` after pydantic validation.
`encoding` stays a plain string (`Literal["text", "blob"]` is a `str` at
runtime), so the defensive encoding branch of `create_ui_resource` remains a
real branch of the embedding. -/
structure CreateUIResourceOptions where
  uri : String
  content : ResourceContentPayload
  encoding : String
deriving DecidableEq

/-- Errors raised out of `create_ui_resource`: `schemaValidationError` models
the pydantic `ValidationError` raised by `model_validate` (step 1), the other
two model `InvalidURIError` and `InvalidContentError` of `exceptions.py`. -/
inductive UIResourceError where
  | schemaValidationError (message : String)
  | invalidURIError (message : String)
  | invalidContentError (message : String)
deriving DecidableEq

/-- Model of `TextResourceContents` / `BlobResourceContents` of `mcp.types` as used by
`create_ui_resource`.  The `uri` field stores the serialization of
`AnyUrl(options.uri)` (see `pyAnyUrl` below): the WHATWG-normalized form of
the supplied string, which in general differs from it (percent-encoding,
dot-segment removal) or fails to parse. -/
inductive ResourceContents where
  | textContents (uri : String) (mimeType : String) (text : String)
  | blobContents (uri : String) (mimeType : String) (blob : String)
deriving DecidableEq

/-- The stored URI of a resource contents value. -/
def ResourceContents.uri : ResourceContents → String
  | .textContents u _ _ => u
  | .blobContents u _ _ => u

/-- The stored MIME type of a resource contents value. -/
def ResourceContents.mimeType : ResourceContents → String
  | .textContents _ m _ => m
  | .blobContents _ m _ => m

/-- The stored content field: the `text` field of a text form, the `blob`
field of a blob form. -/
def ResourceContents.contentData : ResourceContents → String
  | .textContents _ _ t => t
  | .blobContents _ _ b => b

/-- Whether the contents are in text form. -/
def ResourceContents.isText : ResourceContents → Bool
  | .textContents _ _ _ => true
  | .blobContents _ _ _ => false

/-- The `UIResource` envelope of `core.py`: an `EmbeddedResource` whose
constructor fixes `type = "resource"` around the resource contents. -/
structure UIResource where
  type : String
  resource : ResourceContents
deriving DecidableEq

/-- Python `str.startswith`: list-level character comparison on the
underlying character sequences. -/
def pyStartsWith (s p : String) : Bool := p.data.isPrefixOf s.data

/-- Validation of the `content` field against the union
`RawHtmlPayload | ExternalUrlPayload | RemoteDomPayload` (pydantic tries each
member; the `type` literal of each member makes this a dispatch on the tag).
Required fields must be present with the right runtime type, `framework` must
be one of its two literal values, unknown extra keys are ignored (pydantic
`BaseModel` default). -/
def validateContentPayload (j : Json) : Option ResourceContentPayload :=
  match j with
  | .obj kvs =>
    match alookup kvs "type" with
    | some (.str t) =>
      if t = "rawHtml" then
        match alookup kvs "htmlString" with
        | some (.str h) => some (.rawHtml h)
        | _ => none
      else if t = "externalUrl" then
        match alookup kvs "iframeUrl" with
        | some (.str u) => some (.externalUrl u)
        | _ => none
      else if t = "remoteDom" then
        match alookup kvs "script", alookup kvs "framework" with
        | some (.str sc), some (.str f) =>
          if f = "react" ∨ f = "webcomponents" then some (.remoteDom sc f) else none
        | _, _ => none
      else none
    | _ => none
  | _ => none

/-- Pydantic `CreateUIResourceOptions.model_validate`: the input must be a
dict with a string `uri`, a `content` dict matching one of the three payload
variants, and an `encoding` equal to `"text"` or `"blob"`.  Unknown extra
top-level keys are ignored (pydantic `BaseModel` default `extra="ignore"`).
Failure carries a human-readable message (`ValidationError`). -/
def CreateUIResourceOptions.model_validate (j : Json) : Except String CreateUIResourceOptions :=
  match j with
  | .obj kvs =>
    match alookup kvs "uri" with
    | some (.str uri) =>
      match alookup kvs "content" with
      | some cj =>
        match validateContentPayload cj with
        | some content =>
          match alookup kvs "encoding" with
          | some (.str enc) =>
            if enc = "text" ∨ enc = "blob" then
              .ok { uri := uri, content := content, encoding := enc }
            else .error "encoding: Input should be \x27text\x27 or \x27blob\x27"
          | _ => .error "encoding: Field required"
        | none => .error "content: Input should be a valid content payload"
      | none => .error "content: Field required"
    | _ => .error "uri: Field required"
  | _ => .error "Input should be a valid dictionary"

/-- UTF-8 encoding of a single Unicode code point (`str.encode("utf-8")`
acts on code points; Lean `Char` values are exactly the Unicode scalar
values, matching Python strings without lone surrogates). -/
def utf8EncodeChar (n : Nat) : List Nat :=
  if n < 128 then [n]
  else if n < 2048 then [192 + n / 64, 128 + n % 64]
  else if n < 65536 then [224 + n / 4096, 128 + n / 64 % 64, 128 + n % 64]
  else [240 + n / 262144, 128 + n / 4096 % 64, 128 + n / 64 % 64, 128 + n % 64]

/-- UTF-8 encoding of a character sequence. -/
def utf8EncodeList : List Char → List Nat
  | [] => []
  | c :: cs => utf8EncodeChar c.toNat ++ utf8EncodeList cs

/-- Python `s.encode("utf-8")` as a byte sequence. -/
def utf8Encode (s : String) : List Nat := utf8EncodeList s.data

/-- Unicode scalar value test (excludes surrogates and values above
`0x10FFFF`), as required of decoded UTF-8 code points. -/
def isValidCodePoint (n : Nat) : Bool := n < 55296 || (57344 ≤ n && n < 1114112)

/-- Decoding step for a two-byte UTF-8 sequence with leading byte `b`:
one continuation byte in `[0x80, 0xC0)`, overlong forms rejected. -/
def utf8DecTwo (b : Nat) : List Nat → Option (Nat × List Nat)
  | b1 :: bs1 =>
    if 128 ≤ b1 ∧ b1 < 192 then
      if 128 ≤ (b - 192) * 64 + (b1 - 128) then some ((b - 192) * 64 + (b1 - 128), bs1)
      else none
    else none
  | [] => none

/-- Decoding step for a three-byte UTF-8 sequence with leading byte `b`:
two continuation bytes, overlong forms and surrogate values rejected. -/
def utf8DecThree (b : Nat) : List Nat → Option (Nat × List Nat)
  | b1 :: b2 :: bs2 =>
    if (128 ≤ b1 ∧ b1 < 192) ∧ (128 ≤ b2 ∧ b2 < 192) then
      if 2048 ≤ (b - 224) * 4096 + (b1 - 128) * 64 + (b2 - 128) ∧
          isValidCodePoint ((b - 224) * 4096 + (b1 - 128) * 64 + (b2 - 128)) then
        some ((b - 224) * 4096 + (b1 - 128) * 64 + (b2 - 128), bs2)
      else none
    else none
  | _ => none

/-- Decoding step for a four-byte UTF-8 sequence with leading byte `b`:
three continuation bytes, overlong forms and out-of-range values rejected. -/
def utf8DecFour (b : Nat) : List Nat → Option (Nat × List Nat)
  | b1 :: b2 :: b3 :: bs3 =>
    if ((128 ≤ b1 ∧ b1 < 192) ∧ (128 ≤ b2 ∧ b2 < 192)) ∧ (128 ≤ b3 ∧ b3 < 192) then
      if 65536 ≤ (b - 240) * 262144 + (b1 - 128) * 4096 + (b2 - 128) * 64 + (b3 - 128) ∧
          (b - 240) * 262144 + (b1 - 128) * 4096 + (b2 - 128) * 64 + (b3 - 128) < 1114112 then
        some ((b - 240) * 262144 + (b1 - 128) * 4096 + (b2 - 128) * 64 + (b3 - 128), bs3)
      else none
    else none
  | _ => none

/-- Decode one code point from the head of a byte sequence (standard UTF-8:
leading byte classified by range), returning the code point and the remaining
bytes. -/
def utf8DecodeOne : List Nat → Option (Nat × List Nat)
  | [] => none
  | b :: bs =>
    if b < 128 then some (b, bs)
    else if b < 192 then none
    else if b < 224 then utf8DecTwo b bs
    else if b < 240 then utf8DecThree b bs
    else if b < 248 then utf8DecFour b bs
    else none

theorem utf8DecTwo_length {b : Nat} {l : List Nat} {n : Nat} {rest : List Nat}
    (h : utf8DecTwo b l = some (n, rest)) : rest.length < l.length := by
  match l with
  | [] => simp [utf8DecTwo] at h
  | b1 :: bs1 =>
    rw [utf8DecTwo] at h
    split_ifs at h
    simp only [Option.some.injEq, Prod.mk.injEq] at h
    simp [← h.2]

theorem utf8DecThree_length {b : Nat} {l : List Nat} {n : Nat} {rest : List Nat}
    (h : utf8DecThree b l = some (n, rest)) : rest.length < l.length := by
  match l with
  | [] => simp [utf8DecThree] at h
  | [b1] => simp [utf8DecThree] at h
  | b1 :: b2 :: bs2 =>
    rw [utf8DecThree] at h
    split_ifs at h
    simp only [Option.some.injEq, Prod.mk.injEq] at h
    simp [← h.2]
    omega

theorem utf8DecFour_length {b : Nat} {l : List Nat} {n : Nat} {rest : List Nat}
    (h : utf8DecFour b l = some (n, rest)) : rest.length < l.length := by
  match l with
  | [] => simp [utf8DecFour] at h
  | [b1] => simp [utf8DecFour] at h
  | [b1, b2] => simp [utf8DecFour] at h
  | b1 :: b2 :: b3 :: bs3 =>
    rw [utf8DecFour] at h
    split_ifs at h
    simp only [Option.some.injEq, Prod.mk.injEq] at h
    simp [← h.2]
    omega

theorem utf8DecodeOne_length {l : List Nat} {n : Nat} {rest : List Nat}
    (h : utf8DecodeOne l = some (n, rest)) : rest.length < l.length := by
  match l with
  | [] => simp [utf8DecodeOne] at h
  | b :: bs =>
    rw [utf8DecodeOne] at h
    split_ifs at h with h1 h2 h3 h4 h5
    · simp only [Option.some.injEq, Prod.mk.injEq] at h
      simp [← h.2]
    · exact Nat.lt_of_lt_of_le (utf8DecTwo_length h) (by simp)
    · exact Nat.lt_of_lt_of_le (utf8DecThree_length h) (by simp)
    · exact Nat.lt_of_lt_of_le (utf8DecFour_length h) (by simp)

/-- Standard UTF-8 decoding of a byte sequence into code points
(`bytes.decode("utf-8")`): decode one code point at a time until the input is
exhausted; any malformed sequence fails the whole decode. -/
def utf8DecodeList (l : List Nat) : Option (List Nat) :=
  match l with
  | [] => some []
  | b :: bs =>
    match h : utf8DecodeOne (b :: bs) with
    | some (n, rest) =>
      have : rest.length < (b :: bs).length := utf8DecodeOne_length h
      (utf8DecodeList rest).map (fun tail => n :: tail)
    | none => none
termination_by l.length

/-- Standard UTF-8 decoding to a string. -/
def utf8Decode (bytes : List Nat) : Option String :=
  (utf8DecodeList bytes).map (fun ns => String.mk (ns.map Char.ofNat))

/-- The RFC 4648 base64 alphabet. -/
def base64Chars : List Char :=
  ['A', 'B', 'C', 'D', 'E', 'F', 'G', 'H', 'I', 'J', 'K', 'L', 'M',
   'N', 'O', 'P', 'Q', 'R', 'S', 'T', 'U', 'V', 'W', 'X', 'Y', 'Z',
   'a', 'b', 'c', 'd', 'e', 'f', 'g', 'h', 'i', 'j', 'k', 'l', 'm',
   'n', 'o', 'p', 'q', 'r', 's', 't', 'u', 'v', 'w', 'x', 'y', 'z',
   '0', '1', '2', '3', '4', '5', '6', '7', '8', '9', '+', '/']

/-- The alphabet character for a 6-bit value. -/
def b64Char (n : Nat) : Char := base64Chars.getD n '?'

/-- Helper for the inverse alphabet lookup. -/
def b64ValAux : List Char → Nat → Char → Option Nat
  | [], _, _ => none
  | a :: rest, i, c => if c = a then some i else b64ValAux rest (i + 1) c

/-- The 6-bit value of an alphabet character (`none` for characters outside
the alphabet, in particular for the padding character). -/
def b64Val (c : Char) : Option Nat := b64ValAux base64Chars 0 c

/-- RFC 4648 section 4 base64 encoding with padding (`base64.b64encode`):
three input bytes become four alphabet characters, a final group of one or
two bytes is padded with `=`. -/
def b64EncodeList : List Nat → List Char
  | [] => []
  | [a] => [b64Char (a / 4), b64Char (a % 4 * 16), '=', '=']
  | [a, b] => [b64Char (a / 4), b64Char (a % 4 * 16 + b / 16), b64Char (b % 16 * 4), '=']
  | a :: b :: c :: rest =>
    b64Char (a / 4) :: b64Char (a % 4 * 16 + b / 16) ::
      b64Char (b % 16 * 4 + c / 64) :: b64Char (c % 64) :: b64EncodeList rest

/-- Standard (RFC 4648 section 4, padded) base64 decoding: groups of four
characters, padding allowed only in the final group. -/
def b64DecodeList : List Char → Option (List Nat)
  | [] => some []
  | c0 :: c1 :: c2 :: c3 :: rest =>
    match b64Val c0, b64Val c1 with
    | some v0, some v1 =>
      if c2 = '=' then
        if c3 = '=' ∧ rest = [] then some [v0 * 4 + v1 / 16] else none
      else
        match b64Val c2 with
        | some v2 =>
          if c3 = '=' then
            if rest = [] then some [v0 * 4 + v1 / 16, v1 % 16 * 16 + v2 / 4] else none
          else
            match b64Val c3 with
            | some v3 =>
              (b64DecodeList rest).map
                (fun tail => (v0 * 4 + v1 / 16) :: (v1 % 16 * 16 + v2 / 4) :: (v2 % 4 * 64 + v3) :: tail)
            | none => none
        | none => none
    | _, _ => none
  | _ => none

/-- Python `base64.b64encode(content.encode("utf-8")).decode("ascii")`: the blob
string stored by `create_ui_resource` for `encoding = "blob"`. -/
def blobOf (s : String) : String := String.mk (b64EncodeList (utf8Encode s))

/-- Standard base64 decoding followed by UTF-8 decoding, applied to a blob
field (the decoding procedure named by the spec for recovering the content). -/
def decodeBlob (blob : String) : Option String :=
  (b64DecodeList blob.data).bind utf8Decode

/-! ## Model of pydantic `AnyUrl`

`core.py` stores `uri=AnyUrl(options.uri)` (lines 113 and 119).  Pydantic v2
URLs are parsed and re-serialized by a WHATWG URL Standard implementation
(`pydantic-core` uses the rust `url` crate), so the stored string is the
WHATWG normalization of the input — percent-encoding, removal of tabs and
newlines, stripping of leading/trailing C0 controls and spaces, dot-segment
removal — and unparsable inputs raise a `ValidationError`.  The model below
implements that algorithm for the only inputs `create_ui_resource` ever
passes to `AnyUrl`: strings beginning with the five characters `ui://`
(guaranteed by the preceding `startswith` check on the raw string, which
C0/space stripping and tab/newline removal cannot disturb).  The `ui` scheme
is not special, so the non-special branches of the standard apply: the
authority is parsed as userinfo / opaque host / port, and the path keeps no
drive-letter or backslash quirks.  Per the `AnyUrl` documentation a host is
required, so an empty host is rejected. -/

/-- Uppercase hexadecimal digit for percent-encoding. -/
def hexDigitChar (n : Nat) : Char :=
  if n < 10 then Char.ofNat (48 + n) else Char.ofNat (55 + n)

/-- Percent-encoding of one byte, `%XX` with uppercase hex. -/
def percentEncodeByte (b : Nat) : List Char :=
  ['%', hexDigitChar (b / 16), hexDigitChar (b % 16)]

/-- Concatenation of the encodings of a byte sequence. -/
def concatMapBytes (f : Nat → List Char) : List Nat → List Char
  | [] => []
  | b :: bs => f b ++ concatMapBytes f bs

/-- UTF-8 percent-encode a character when its code point is in the given
encode set, otherwise keep it. -/
def percentEncodeChar (inSet : Nat → Bool) (c : Char) : List Char :=
  if inSet c.toNat then concatMapBytes percentEncodeByte (utf8EncodeChar c.toNat)
  else [c]

/-- UTF-8 percent-encode a character sequence over an encode set. -/
def percentEncodeList (inSet : Nat → Bool) : List Char → List Char
  | [] => []
  | c :: cs => percentEncodeChar inSet c ++ percentEncodeList inSet cs

/-- The C0 control percent-encode set: C0 controls and code points above
`~`. -/
def c0PercentSet (n : Nat) : Bool := n < 32 || 126 < n

/-- The fragment percent-encode set: C0 set plus space, `"`, `<`, `>` and
the backtick. -/
def fragmentPercentSet (n : Nat) : Bool :=
  c0PercentSet n || n = 32 || n = 34 || n = 60 || n = 62 || n = 96

/-- The path percent-encode set: fragment set plus `#`, `?` and braces. -/
def pathPercentSet (n : Nat) : Bool :=
  fragmentPercentSet n || n = 35 || n = 63 || n = 123 || n = 125

/-- The query percent-encode set for non-special URLs: C0 set plus space,
`"`, `#`, `<`, `>`. -/
def queryPercentSet (n : Nat) : Bool :=
  c0PercentSet n || n = 32 || n = 34 || n = 35 || n = 60 || n = 62

/-- The userinfo percent-encode set: path set plus `/`, `:`, `;`, `=`, `@`,
the square-bracket range and `|`. -/
def userinfoPercentSet (n : Nat) : Bool :=
  pathPercentSet n || n = 47 || n = 58 || n = 59 || n = 61 || n = 64 ||
    (91 ≤ n && n ≤ 94) || n = 124

/-- Forbidden host code points of the WHATWG standard (an opaque host
containing one fails to parse). -/
def forbiddenHostCodePoint (n : Nat) : Bool :=
  n = 0 || n = 9 || n = 10 || n = 13 || n = 32 || n = 35 || n = 47 || n = 58 ||
    n = 60 || n = 62 || n = 63 || n = 64 || n = 91 || n = 92 || n = 93 ||
    n = 94 || n = 124

/-- C0 control or space, stripped from the ends of the input. -/
def isC0OrSpace (c : Char) : Bool := c.toNat ≤ 32

/-- ASCII tab or newline, removed everywhere in the input. -/
def isTabOrNewline (c : Char) : Bool := c.toNat = 9 || c.toNat = 10 || c.toNat = 13

/-- Split a character list at every occurrence of a separator, keeping empty
pieces. -/
def splitOnChar (sep : Char) : List Char → List (List Char)
  | [] => [[]]
  | c :: cs =>
    if c = sep then [] :: splitOnChar sep cs
    else
      match splitOnChar sep cs with
      | seg :: rest => (c :: seg) :: rest
      | [] => [[c]]

/-- Split an authority at its last `@` into userinfo and host-port, when an
`@` is present. -/
def splitAtLastAt (l : List Char) : Option (List Char × List Char) :=
  match l.reverse.span (fun c => !(c == '@')) with
  | (_, []) => none
  | (revHostPort, _ :: revUser) => some (revUser.reverse, revHostPort.reverse)

/-- Case-lowered copy of a path segment, for dot-segment recognition. -/
def lowerSeg (seg : List Char) : List Char := seg.map Char.toLower

/-- A single-dot path segment: `.` or `%2e` (case-insensitive). -/
def isSingleDotSeg (seg : List Char) : Bool :=
  lowerSeg seg == ['.'] || lowerSeg seg == ['%', '2', 'e']

/-- A double-dot path segment: `..`, `.%2e`, `%2e.` or `%2e%2e`
(case-insensitive). -/
def isDoubleDotSeg (seg : List Char) : Bool :=
  lowerSeg seg == ['.', '.'] || lowerSeg seg == ['.', '%', '2', 'e'] ||
    lowerSeg seg == ['%', '2', 'e', '.'] ||
    lowerSeg seg == ['%', '2', 'e', '%', '2', 'e']

/-- Dot-segment removal of the WHATWG path state: a double-dot segment pops
the previous segment, a single-dot segment is dropped, and a final dot
segment leaves a trailing empty segment (trailing slash). -/
def dotProcess (acc : List (List Char)) : List (List Char) → List (List Char)
  | [] => acc
  | seg :: rest =>
    if isDoubleDotSeg seg then
      if rest.isEmpty then acc.dropLast ++ [[]] else dotProcess acc.dropLast rest
    else if isSingleDotSeg seg then
      if rest.isEmpty then acc ++ [[]] else dotProcess acc rest
    else dotProcess (acc ++ [seg]) rest

/-- Serialization of a processed path: a `/` before every segment. -/
def joinSegs : List (List Char) → List Char
  | [] => []
  | seg :: rest => '/' :: (seg ++ joinSegs rest)

/-- ASCII digit test for port parsing. -/
def isAsciiDigit (c : Char) : Bool := 48 ≤ c.toNat && c.toNat ≤ 57

/-- Model of `AnyUrl(uri)` of pydantic on the inputs reaching it in
`create_ui_resource`: strings beginning with `ui://`.  Returns the WHATWG
serialization on success and a `ValidationError` message on parse failure.
Steps: strip leading/trailing C0 controls and spaces, remove tabs and
newlines, read the authority up to the first `/`, `?` or `#`, split userinfo
at the last `@` (percent-encoded with the userinfo set; empty credentials are
dropped), parse the opaque host (forbidden code point fails, C0 set
percent-encoded, empty host fails — a host is required, and an empty host
with credentials or a port is a WHATWG parse failure), parse a digits-only
port of at most 65535 (an empty port is dropped), then the path with
percent-encoding and dot-segment removal, and a query and fragment with
their encode sets. -/
def pyAnyUrl (uri : String) : Except String String :=
  let cs0 := (((uri.data.dropWhile isC0OrSpace).reverse.dropWhile
    isC0OrSpace).reverse).filter (fun c => !(isTabOrNewline c))
  match cs0 with
  | 'u' :: 'i' :: ':' :: '/' :: '/' :: rest =>
    let (auth, remainder) := rest.span (fun c => !(c == '/' || c == '?' || c == '#'))
    let userinfoAndHostPort :=
      match splitAtLastAt auth with
      | none => (none, auth)
      | some (user, hostPort) => (some user, hostPort)
    let userinfo := userinfoAndHostPort.1
    let hostPort := userinfoAndHostPort.2
    let (hostChars, portPart) := hostPort.span (fun c => !(c == ':'))
    if hostChars.any (fun c => forbiddenHostCodePoint c.toNat) then
      .error "Input should be a valid URL, invalid domain character"
    else if hostChars.isEmpty then
      .error "Input should be a valid URL, empty host"
    else
      let portResult : Except String (Option Nat) :=
        match portPart with
        | [] => .ok none
        | _ :: pd =>
          if pd.isEmpty then .ok none
          else if pd.all isAsciiDigit then
            let v := pd.foldl (fun a c => a * 10 + (c.toNat - 48)) 0
            if v ≤ 65535 then .ok (some v)
            else .error "Input should be a valid URL, invalid port number"
          else .error "Input should be a valid URL, invalid port number"
      match portResult with
      | .error m => .error m
      | .ok port =>
        let userinfoOut : List Char :=
          match userinfo with
          | none => []
          | some user =>
            let (uname, prest) := user.span (fun c => !(c == ':'))
            let pass := match prest with
              | [] => []
              | _ :: pw => pw
            if uname.isEmpty && pass.isEmpty then []
            else
              percentEncodeList userinfoPercentSet uname ++
                (if pass.isEmpty then []
                 else ':' :: percentEncodeList userinfoPercentSet pass) ++ ['@']
        let hostOut := percentEncodeList c0PercentSet hostChars
        let portOut : List Char :=
          match port with
          | none => []
          | some v => ':' :: (Nat.toDigits 10 v)
        let (pathChars, qf) := remainder.span (fun c => !(c == '?' || c == '#'))
        let pathOut : List Char :=
          match pathChars with
          | [] => []
          | _ :: p1 =>
            joinSegs (dotProcess []
              ((splitOnChar '/' p1).map (percentEncodeList pathPercentSet)))
        let queryAndFragment : List Char :=
          match qf with
          | '?' :: qrest =>
            let (q, f1) := qrest.span (fun c => !(c == '#'))
            '?' :: percentEncodeList queryPercentSet q ++
              (match f1 with
               | _ :: fr => '#' :: percentEncodeList fragmentPercentSet fr
               | [] => [])
          | '#' :: fr => '#' :: percentEncodeList fragmentPercentSet fr
          | _ => []
        .ok (String.mk ('u' :: 'i' :: ':' :: '/' :: '/' ::
          (userinfoOut ++ hostOut ++ portOut ++ pathOut ++ queryAndFragment)))
  | _ => .error "Input should be a valid URL, relative URL without a base"

/-- The dispatch on `content.type` inside `create_ui_resource`
(`core.py` lines 54-106): derives the actual content string and the MIME
type, or raises `InvalidContentError`.  Message strings are verbatim from the
source (with `\x27` for the single-quote character). -/
def determine_content_and_mime (content : ResourceContentPayload) :
    Except UIResourceError (String × String) :=
  if content.type = "rawHtml" then
    match content with
    | .rawHtml htmlString =>
      if htmlString = "" then
        .error (.invalidContentError
          "htmlString must be provided as a non-empty string when content.type is \x27rawHtml\x27")
      else .ok (htmlString, "text/html")
    | _ => .error (.invalidContentError "Content must be RawHtmlPayload when type is \x27rawHtml\x27")
  else if content.type = "externalUrl" then
    match content with
    | .externalUrl iframe_url =>
      if iframe_url = "" then
        .error (.invalidContentError
          "content.iframeUrl must be provided as a non-empty string when content.type is \x27externalUrl\x27")
      else .ok (iframe_url, "text/uri-list")
    | _ =>
      .error (.invalidContentError "Content must be ExternalUrlPayload when type is \x27externalUrl\x27")
  else if content.type = "remoteDom" then
    match content with
    | .remoteDom script framework =>
      if script = "" then
        .error (.invalidContentError
          "content.script must be provided as a non-empty string when content.type is \x27remoteDom\x27")
      else if ¬ (framework = "react" ∨ framework = "webcomponents") then
        .error (.invalidContentError
          ("content.framework must be \x27react\x27 or \x27webcomponents\x27, got: " ++ framework))
      else if framework = "react" then
        .ok (script, "application/vnd.mcp-ui.remote-dom+javascript; framework=react")
      else
        .ok (script, "application/vnd.mcp-ui.remote-dom+javascript; framework=webcomponents")
    | _ => .error (.invalidContentError "Content must be RemoteDomPayload when type is \x27remoteDom\x27")
  else
    .error (.invalidContentError ("Invalid content.type specified: " ++ content.type))

/-- The encoding dispatch inside `create_ui_resource` (`core.py` lines
109-124): wraps the uri in `AnyUrl` (whose `ValidationError` propagates to
the caller as a pydantic error) and builds text or blob resource contents, or
raises `InvalidContentError` on an unknown encoding. -/
def encode_resource (uri : String) (mime_type : String) (actual_content_string : String)
    (encoding : String) : Except UIResourceError ResourceContents :=
  if encoding = "text" then
    match pyAnyUrl uri with
    | .error m => .error (.schemaValidationError m)
    | .ok u => .ok (.textContents u mime_type actual_content_string)
  else if encoding = "blob" then
    match pyAnyUrl uri with
    | .error m => .error (.schemaValidationError m)
    | .ok u => .ok (.blobContents u mime_type (blobOf actual_content_string))
  else
    .error (.invalidContentError ("Invalid encoding type: " ++ encoding))

/-- Body of `create_ui_resource` after `model_validate` (`core.py` lines 50-126):
URI check, content dispatch, encoding, and wrapping in the `UIResource`
envelope.  A Python `raise` is an early `.error` exit. -/
def create_ui_resource_body (options : CreateUIResourceOptions) :
    Except UIResourceError UIResource :=
  if ¬ pyStartsWith options.uri "ui://" then
    .error (.invalidURIError ("URI must start with \x27ui://\x27 but got: " ++ options.uri))
  else
    match determine_content_and_mime options.content with
    | .error e => .error e
    | .ok (actual_content_string, mime_type) =>
      match encode_resource options.uri mime_type actual_content_string options.encoding with
      | .error e => .error e
      | .ok rc => .ok { type := "resource", resource := rc }

/-- Function `create_ui_resource` (`core.py` lines 33-126): pydantic validation of the
options dict followed by the builder body. -/
def create_ui_resource (options_dict : Json) : Except UIResourceError UIResource :=
  match CreateUIResourceOptions.model_validate options_dict with
  | .error msg => .error (.schemaValidationError msg)
  | .ok options => create_ui_resource_body options

/-- The MIME type dictated by the content variant: the pure function of
`content.type` (and `framework`) from the spec's table. -/
def expected_mime_type : ResourceContentPayload → String
  | .rawHtml _ => "text/html"
  | .externalUrl _ => "text/uri-list"
  | .remoteDom _ f => "application/vnd.mcp-ui.remote-dom+javascript; framework=" ++ f

/-- The required-field name of each content variant, as used in the
empty-content error messages. -/
def required_field_name : ResourceContentPayload → String
  | .rawHtml _ => "htmlString"
  | .externalUrl _ => "iframeUrl"
  | .remoteDom _ _ => "script"

/-- The `InvalidContentError` message produced for an empty required field,
verbatim from `core.py`. -/
def empty_field_message : ResourceContentPayload → String
  | .rawHtml _ =>
    "htmlString must be provided as a non-empty string when content.type is \x27rawHtml\x27"
  | .externalUrl _ =>
    "content.iframeUrl must be provided as a non-empty string when content.type is \x27externalUrl\x27"
  | .remoteDom _ _ =>
    "content.script must be provided as a non-empty string when content.type is \x27remoteDom\x27"

/-- The `UIActionResult` union of `types.py`: five pydantic classes sharing
an optional `messageId` (default `None`), each with a `type` literal and a
payload.  `params` dictionaries (`dict[str, Any]`) are association lists of
JSON values in insertion order. -/
inductive UIActionResult where
  | toolCall (messageId : Option String) (toolName : String) (params : List (String × Json))
  | prompt (messageId : Option String) (promptText : String)
  | link (messageId : Option String) (url : String)
  | intent (messageId : Option String) (intentName : String) (params : List (String × Json))
  | notification (messageId : Option String) (message : String)

/-- The `type` literal of an action result variant. -/
def UIActionResult.action_type : UIActionResult → String
  | .toolCall _ _ _ => "tool"
  | .prompt _ _ => "prompt"
  | .link _ _ => "link"
  | .intent _ _ _ => "intent"
  | .notification _ _ => "notify"

/-- Helper `ui_action_result_tool_call` of `core.py`: builds the `tool` variant,
`messageId` left at its default `None`. -/
def ui_action_result_tool_call (tool_name : String) (params : List (String × Json)) :
    UIActionResult :=
  .toolCall none tool_name params

/-- Helper `ui_action_result_prompt` of `core.py`. -/
def ui_action_result_prompt (p : String) : UIActionResult :=
  .prompt none p

/-- Helper `ui_action_result_link` of `core.py`. -/
def ui_action_result_link (url : String) : UIActionResult :=
  .link none url

/-- Helper `ui_action_result_intent` of `core.py`. -/
def ui_action_result_intent (i : String) (params : List (String × Json)) : UIActionResult :=
  .intent none i params

/-- Helper `ui_action_result_notification` of `core.py`. -/
def ui_action_result_notification (message : String) : UIActionResult :=
  .notification none message

/-- The `messageId` field as serialized by `model_dump_json`: JSON `null` when absent. -/
def serializeMessageId : Option String → Json
  | none => .null
  | some s => .str s

/-- Function `serialize_ui_action_result` of `utils.py` (`model_dump_json`), as the
JSON tree the emitted string denotes: fields in pydantic definition order
(the inherited `messageId` first, then `type`, then `payload`). -/
def serialize_ui_action_result : UIActionResult → Json
  | .toolCall mid toolName params =>
    .obj [("messageId", serializeMessageId mid), ("type", .str "tool"),
          ("payload", .obj [("toolName", .str toolName), ("params", .obj params)])]
  | .prompt mid p =>
    .obj [("messageId", serializeMessageId mid), ("type", .str "prompt"),
          ("payload", .obj [("prompt", .str p)])]
  | .link mid url =>
    .obj [("messageId", serializeMessageId mid), ("type", .str "link"),
          ("payload", .obj [("url", .str url)])]
  | .intent mid i params =>
    .obj [("messageId", serializeMessageId mid), ("type", .str "intent"),
          ("payload", .obj [("intent", .str i), ("params", .obj params)])]
  | .notification mid m =>
    .obj [("messageId", serializeMessageId mid), ("type", .str "notify"),
          ("payload", .obj [("message", .str m)])]

/-- Pydantic validation of the optional `messageId` field: absent or `null`
yields the default `None`, a string is accepted, anything else fails. -/
def validateMessageId (kvs : List (String × Json)) : Option (Option String) :=
  match alookup kvs "messageId" with
  | none => some none
  | some .null => some none
  | some (.str s) => some (some s)
  | some _ => none

/-- Pydantic `UIActionResultToolCall.model_validate`: requires the `type` literal
`"tool"` and a payload dict with a string `toolName` and a dict `params`;
extra keys are ignored. -/
def UIActionResultToolCall.model_validate (j : Json) : Option UIActionResult :=
  match j with
  | .obj kvs =>
    match validateMessageId kvs, alookup kvs "type", alookup kvs "payload" with
    | some mid, some (.str t), some (.obj pkvs) =>
      if t = "tool" then
        match alookup pkvs "toolName", alookup pkvs "params" with
        | some (.str tn), some (.obj ps) => some (.toolCall mid tn ps)
        | _, _ => none
      else none
    | _, _, _ => none
  | _ => none

/-- Pydantic `UIActionResultPrompt.model_validate`. -/
def UIActionResultPrompt.model_validate (j : Json) : Option UIActionResult :=
  match j with
  | .obj kvs =>
    match validateMessageId kvs, alookup kvs "type", alookup kvs "payload" with
    | some mid, some (.str t), some (.obj pkvs) =>
      if t = "prompt" then
        match alookup pkvs "prompt" with
        | some (.str p) => some (.prompt mid p)
        | _ => none
      else none
    | _, _, _ => none
  | _ => none

/-- Pydantic `UIActionResultLink.model_validate`. -/
def UIActionResultLink.model_validate (j : Json) : Option UIActionResult :=
  match j with
  | .obj kvs =>
    match validateMessageId kvs, alookup kvs "type", alookup kvs "payload" with
    | some mid, some (.str t), some (.obj pkvs) =>
      if t = "link" then
        match alookup pkvs "url" with
        | some (.str u) => some (.link mid u)
        | _ => none
      else none
    | _, _, _ => none
  | _ => none

/-- Pydantic `UIActionResultIntent.model_validate`. -/
def UIActionResultIntent.model_validate (j : Json) : Option UIActionResult :=
  match j with
  | .obj kvs =>
    match validateMessageId kvs, alookup kvs "type", alookup kvs "payload" with
    | some mid, some (.str t), some (.obj pkvs) =>
      if t = "intent" then
        match alookup pkvs "intent", alookup pkvs "params" with
        | some (.str i), some (.obj ps) => some (.intent mid i ps)
        | _, _ => none
      else none
    | _, _, _ => none
  | _ => none

/-- Pydantic `UIActionResultNotification.model_validate`. -/
def UIActionResultNotification.model_validate (j : Json) : Option UIActionResult :=
  match j with
  | .obj kvs =>
    match validateMessageId kvs, alookup kvs "type", alookup kvs "payload" with
    | some mid, some (.str t), some (.obj pkvs) =>
      if t = "notify" then
        match alookup pkvs "message" with
        | some (.str m) => some (.notification mid m)
        | _ => none
      else none
    | _, _, _ => none
  | _ => none

/-- Function `deserialize_ui_action_result` of `utils.py`.  The argument is the result
of `json.loads` on the input string: `none` models a string that is not valid
JSON (`json.JSONDecodeError`, re-raised as `ValueError("Invalid JSON: ...")`).
The function checks the input is a dict containing `type` and `payload`,
dispatches on the `type` discriminator, and validates the matching class; a
pydantic `ValidationError` surfaces as the error value `"ValidationError"`.
A non-string `type` value compares unequal to every branch literal and falls
through to the invalid-action-type error (its message formats the offending
value; for non-string tags the formatted value is abstracted). -/
def deserialize_ui_action_result (parsed : Option Json) : Except String UIActionResult :=
  match parsed with
  | none => .error "Invalid JSON"
  | some data =>
    match data with
    | .obj kvs =>
      match alookup kvs "type", alookup kvs "payload" with
      | some t, some _ =>
        match t with
        | .str action_type =>
          if action_type = "tool" then
            match UIActionResultToolCall.model_validate data with
            | some r => .ok r
            | none => .error "ValidationError"
          else if action_type = "prompt" then
            match UIActionResultPrompt.model_validate data with
            | some r => .ok r
            | none => .error "ValidationError"
          else if action_type = "link" then
            match UIActionResultLink.model_validate data with
            | some r => .ok r
            | none => .error "ValidationError"
          else if action_type = "intent" then
            match UIActionResultIntent.model_validate data with
            | some r => .ok r
            | none => .error "ValidationError"
          else if action_type = "notify" then
            match UIActionResultNotification.model_validate data with
            | some r => .ok r
            | none => .error "ValidationError"
          else
            .error ("Invalid action type: " ++ action_type)
        | _ => .error "Invalid action type: <non-string>"
      | _, _ => .error "Invalid UI action result format"
    | _ => .error "Invalid UI action result format"


/-! ## Codec round-trip lemmas -/

theorem char_toNat_valid (c : Char) :
    c.toNat < 55296 ∨ (57343 < c.toNat ∧ c.toNat < 1114112) := by
  have h := c.valid
  rcases h with h | h
  · exact Or.inl h
  · exact Or.inr h

theorem utf8DecodeList_cons_of_one {l : List Nat} {n : Nat} {rest : List Nat}
    (hone : utf8DecodeOne l = some (n, rest)) :
    utf8DecodeList l = (utf8DecodeList rest).map (fun tail => n :: tail) := by
  match l with
  | [] => rw [utf8DecodeOne] at hone; cases hone
  | b :: bs =>
    rw [utf8DecodeList]
    split
    · rename_i n1 rest1 heq
      rw [hone] at heq
      injection heq with heq2
      injection heq2 with ha hb
      rw [ha, hb]
    · rename_i heq
      rw [hone] at heq
      cases heq

theorem utf8DecodeOne_encodeChar (n : Nat)
    (hn : n < 55296 ∨ (57343 < n ∧ n < 1114112)) (rest : List Nat) :
    utf8DecodeOne (utf8EncodeChar n ++ rest) = some (n, rest) := by
  unfold utf8EncodeChar
  by_cases h1 : n < 128
  · rw [if_pos h1]
    simp only [List.cons_append, List.nil_append]
    rw [utf8DecodeOne, if_pos h1]
  · rw [if_neg h1]
    by_cases h2 : n < 2048
    · rw [if_pos h2]
      simp only [List.cons_append, List.nil_append]
      rw [utf8DecodeOne, if_neg (by omega), if_neg (by omega), if_pos (by omega)]
      rw [utf8DecTwo, if_pos (by omega)]
      have harith : (192 + n / 64 - 192) * 64 + (128 + n % 64 - 128) = n := by omega
      rw [harith, if_pos (by omega)]
    · rw [if_neg h2]
      by_cases h3 : n < 65536
      · rw [if_pos h3]
        simp only [List.cons_append, List.nil_append]
        rw [utf8DecodeOne, if_neg (by omega), if_neg (by omega), if_neg (by omega),
          if_pos (by omega)]
        rw [utf8DecThree, if_pos (by omega)]
        have harith : (224 + n / 4096 - 224) * 4096 + (128 + n / 64 % 64 - 128) * 64 +
            (128 + n % 64 - 128) = n := by omega
        rw [harith, if_pos ⟨by omega, by simp only [isValidCodePoint]; simp; omega⟩]
      · rw [if_neg h3]
        simp only [List.cons_append, List.nil_append]
        rw [utf8DecodeOne, if_neg (by omega), if_neg (by omega), if_neg (by omega),
          if_neg (by omega), if_pos (by omega)]
        rw [utf8DecFour, if_pos (by omega)]
        have harith : (240 + n / 262144 - 240) * 262144 + (128 + n / 4096 % 64 - 128) * 4096 +
            (128 + n / 64 % 64 - 128) * 64 + (128 + n % 64 - 128) = n := by omega
        rw [harith, if_pos (by omega)]

theorem utf8DecodeList_utf8EncodeList (cs : List Char) :
    utf8DecodeList (utf8EncodeList cs) = some (cs.map Char.toNat) := by
  induction cs with
  | nil => simp [utf8EncodeList, utf8DecodeList]
  | cons c cs ih =>
    rw [utf8EncodeList,
      utf8DecodeList_cons_of_one (utf8DecodeOne_encodeChar c.toNat (char_toNat_valid c) _), ih]
    rfl

theorem utf8Decode_utf8Encode (s : String) : utf8Decode (utf8Encode s) = some s := by
  unfold utf8Decode utf8Encode
  rw [utf8DecodeList_utf8EncodeList]
  simp only [Option.map_some', Option.some.injEq, List.map_map]
  have hcomp : (Char.ofNat ∘ Char.toNat) = id := by
    funext c
    exact Char.ofNat_toNat c
  rw [hcomp, List.map_id]

theorem utf8EncodeChar_lt_256 (n : Nat) (hn : n < 1114112) :
    ∀ b ∈ utf8EncodeChar n, b < 256 := by
  intro b hb
  unfold utf8EncodeChar at hb
  split_ifs at hb <;> simp at hb <;> omega

theorem utf8Encode_lt_256 (s : String) : ∀ b ∈ utf8Encode s, b < 256 := by
  unfold utf8Encode
  generalize s.data = cs
  induction cs with
  | nil => intro b hb; simp [utf8EncodeList] at hb
  | cons c cs ih =>
    intro b hb
    rw [utf8EncodeList] at hb
    rcases List.mem_append.mp hb with h | h
    · have hc := char_toNat_valid c
      exact utf8EncodeChar_lt_256 c.toNat (by omega) b h
    · exact ih b h

theorem b64Val_b64Char : ∀ n : Nat, n < 64 → b64Val (b64Char n) = some n := by decide

theorem b64Char_ne_pad : ∀ n : Nat, n < 64 → ¬ (b64Char n = '=') := by decide

theorem b64DecodeList_b64EncodeList :
    ∀ bytes : List Nat, (∀ x ∈ bytes, x < 256) →
      b64DecodeList (b64EncodeList bytes) = some bytes := by
  intro bytes
  induction bytes using b64EncodeList.induct with
  | case1 => intro _; rfl
  | case2 a =>
    intro h
    have ha : a < 256 := h a (by simp)
    have hv0 : a / 4 < 64 := by omega
    have hv1 : a % 4 * 16 < 64 := by omega
    simp only [b64EncodeList, b64DecodeList, b64Val_b64Char _ hv0, b64Val_b64Char _ hv1]
    simp only [if_true, and_self, Option.some.injEq, List.cons.injEq, and_true]
    omega
  | case3 a b =>
    intro h
    have ha : a < 256 := h a (by simp)
    have hb : b < 256 := h b (by simp)
    have hv0 : a / 4 < 64 := by omega
    have hv1 : a % 4 * 16 + b / 16 < 64 := by omega
    have hv2 : b % 16 * 4 < 64 := by omega
    have hne2 : b64Char (b % 16 * 4) ≠ '=' := b64Char_ne_pad _ hv2
    simp only [b64EncodeList, b64DecodeList, b64Val_b64Char _ hv0, b64Val_b64Char _ hv1,
      b64Val_b64Char _ hv2, hne2]
    simp only [if_true, if_false, and_self, Option.some.injEq, List.cons.injEq, and_true]
    constructor <;> omega
  | case4 a b c rest ih =>
    intro h
    have ha : a < 256 := h a (by simp)
    have hb : b < 256 := h b (by simp)
    have hc : c < 256 := h c (by simp)
    have hrest : ∀ x ∈ rest, x < 256 := fun x hx => h x (by simp [hx])
    have hv0 : a / 4 < 64 := by omega
    have hv1 : a % 4 * 16 + b / 16 < 64 := by omega
    have hv2 : b % 16 * 4 + c / 64 < 64 := by omega
    have hv3 : c % 64 < 64 := by omega
    have hne2 : b64Char (b % 16 * 4 + c / 64) ≠ '=' := b64Char_ne_pad _ hv2
    have hne3 : b64Char (c % 64) ≠ '=' := b64Char_ne_pad _ hv3
    simp only [b64EncodeList, b64DecodeList, b64Val_b64Char _ hv0, b64Val_b64Char _ hv1,
      b64Val_b64Char _ hv2, b64Val_b64Char _ hv3, hne2, hne3]
    rw [ih hrest]
    simp only [if_true, if_false, and_self, Option.map_some', Option.some.injEq,
      List.cons.injEq]
    refine ⟨by omega, by omega, by omega, trivial⟩

theorem decodeBlob_blobOf (s : String) : decodeBlob (blobOf s) = some s := by
  unfold decodeBlob blobOf
  rw [show (String.mk (b64EncodeList (utf8Encode s))).data = b64EncodeList (utf8Encode s) from rfl]
  rw [b64DecodeList_b64EncodeList _ (utf8Encode_lt_256 s)]
  exact utf8Decode_utf8Encode s

/-! ## Builder characterization lemmas -/

theorem determine_content_and_mime_ok {c : ResourceContentPayload} {p : String × String}
    (h : determine_content_and_mime c = .ok p) :
    p = (contentString c, expected_mime_type c) ∧ contentString c ≠ "" ∧
      (∀ s f, c = .remoteDom s f → f = "react" ∨ f = "webcomponents") := by
  cases c <;> simp only [determine_content_and_mime, ResourceContentPayload.type] at h <;>
    split_ifs at h <;> simp_all [contentString, expected_mime_type]

theorem encode_resource_ok {uri mime acs enc : String} {rc : ResourceContents}
    (h : encode_resource uri mime acs enc = .ok rc) :
    ∃ u, pyAnyUrl uri = .ok u ∧
      ((enc = "text" ∧ rc = .textContents u mime acs) ∨
        (enc = "blob" ∧ rc = .blobContents u mime (blobOf acs))) := by
  simp only [encode_resource] at h
  split_ifs at h with h1 h2
  · cases hu : pyAnyUrl uri with
    | error m => rw [hu] at h; exact Except.noConfusion h
    | ok u =>
      rw [hu] at h
      injection h with h3
      exact ⟨u, rfl, Or.inl ⟨h1, h3.symm⟩⟩
  · cases hu : pyAnyUrl uri with
    | error m => rw [hu] at h; exact Except.noConfusion h
    | ok u =>
      rw [hu] at h
      injection h with h3
      exact ⟨u, rfl, Or.inr ⟨h2, h3.symm⟩⟩

theorem determine_content_and_mime_error {c : ResourceContentPayload} {e : UIResourceError}
    (hfw : ∀ s f, c = .remoteDom s f → f = "react" ∨ f = "webcomponents")
    (h : determine_content_and_mime c = .error e) :
    e = .invalidContentError (empty_field_message c) ∧ contentString c = "" := by
  cases c with
  | rawHtml hs =>
    simp only [determine_content_and_mime, ResourceContentPayload.type] at h
    split_ifs at h <;> simp_all [empty_field_message, contentString]
  | externalUrl u =>
    simp only [determine_content_and_mime, ResourceContentPayload.type] at h
    split_ifs at h <;> simp_all [empty_field_message, contentString]
  | remoteDom s f =>
    have hf := hfw s f rfl
    simp only [determine_content_and_mime, ResourceContentPayload.type] at h
    split_ifs at h <;> simp_all [empty_field_message, contentString]

theorem encode_resource_error {uri mime acs enc : String} {e : UIResourceError}
    (henc : enc = "text" ∨ enc = "blob") (h : encode_resource uri mime acs enc = .error e) :
    ∃ m, pyAnyUrl uri = .error m ∧ e = .schemaValidationError m := by
  simp only [encode_resource] at h
  split_ifs at h with h1 h2
  · cases hu : pyAnyUrl uri with
    | error m =>
      rw [hu] at h
      injection h with h3
      exact ⟨m, rfl, h3.symm⟩
    | ok u => rw [hu] at h; exact Except.noConfusion h
  · cases hu : pyAnyUrl uri with
    | error m =>
      rw [hu] at h
      injection h with h3
      exact ⟨m, rfl, h3.symm⟩
    | ok u => rw [hu] at h; exact Except.noConfusion h
  · rcases henc with he | he
    · exact absurd he h1
    · exact absurd he h2

theorem validateContentPayload_framework {j : Json} {c : ResourceContentPayload}
    (h : validateContentPayload j = some c) :
    ∀ s f, c = .remoteDom s f → f = "react" ∨ f = "webcomponents" := by
  intro s f hc
  subst hc
  unfold validateContentPayload at h
  repeat' split at h
  all_goals simp_all

theorem model_validate_ok {j : Json} {opts : CreateUIResourceOptions}
    (h : CreateUIResourceOptions.model_validate j = .ok opts) :
    (opts.encoding = "text" ∨ opts.encoding = "blob") ∧
      (∀ s f, opts.content = .remoteDom s f → f = "react" ∨ f = "webcomponents") := by
  unfold CreateUIResourceOptions.model_validate at h
  repeat' split at h
  all_goals try exact Except.noConfusion h
  rename_i henc
  rename_i hcontent _ _ _
  cases h
  exact ⟨henc, validateContentPayload_framework hcontent⟩

theorem create_ui_resource_body_ok {opts : CreateUIResourceOptions} {res : UIResource}
    (h : create_ui_resource_body opts = .ok res) :
    pyStartsWith opts.uri "ui://" = true ∧ res.type = "resource" ∧
      contentString opts.content ≠ "" ∧
      ∃ u, pyAnyUrl opts.uri = .ok u ∧
        ((opts.encoding = "text" ∧
            res.resource = .textContents u (expected_mime_type opts.content)
              (contentString opts.content)) ∨
          (opts.encoding = "blob" ∧
            res.resource = .blobContents u (expected_mime_type opts.content)
              (blobOf (contentString opts.content)))) := by
  unfold create_ui_resource_body at h
  split at h
  · exact Except.noConfusion h
  · rename_i hpre
    rw [not_not] at hpre
    split at h
    · exact Except.noConfusion h
    · rename_i acs mime hdet
      obtain ⟨hp, hne, _⟩ := determine_content_and_mime_ok hdet
      split at h
      · exact Except.noConfusion h
      · rename_i rc henc
        have he := encode_resource_ok henc
        cases h
        refine ⟨hpre, rfl, hne, ?_⟩
        have hacs : acs = contentString opts.content := congrArg Prod.fst hp
        have hmime : mime = expected_mime_type opts.content := congrArg Prod.snd hp
        rw [hacs, hmime] at he
        exact he

theorem create_ui_resource_body_uri_error {opts : CreateUIResourceOptions}
    (huri : pyStartsWith opts.uri "ui://" = false) :
    create_ui_resource_body opts =
      .error (.invalidURIError ("URI must start with \x27ui://\x27 but got: " ++ opts.uri)) := by
  unfold create_ui_resource_body
  rw [if_pos (by simp [huri])]

theorem create_ui_resource_body_empty_error {opts : CreateUIResourceOptions}
    (huri : pyStartsWith opts.uri "ui://" = true)
    (hempty : contentString opts.content = "") :
    create_ui_resource_body opts =
      .error (.invalidContentError (empty_field_message opts.content)) := by
  unfold create_ui_resource_body
  rw [if_neg (by simp [huri])]
  have hdet : determine_content_and_mime opts.content =
      .error (.invalidContentError (empty_field_message opts.content)) := by
    cases hc : opts.content <;>
      simp_all [determine_content_and_mime, ResourceContentPayload.type, contentString,
        empty_field_message]
  rw [hdet]

theorem create_ui_resource_body_error {opts : CreateUIResourceOptions} {e : UIResourceError}
    (henc : opts.encoding = "text" ∨ opts.encoding = "blob")
    (hfw : ∀ s f, opts.content = .remoteDom s f → f = "react" ∨ f = "webcomponents")
    (h : create_ui_resource_body opts = .error e) :
    e = .invalidURIError ("URI must start with \x27ui://\x27 but got: " ++ opts.uri) ∨
      e = .invalidContentError (empty_field_message opts.content) ∨
      (∃ m, pyAnyUrl opts.uri = .error m ∧ e = .schemaValidationError m) := by
  unfold create_ui_resource_body at h
  split at h
  · left
    cases h
    rfl
  · split at h
    · rename_i e2 hdet
      have hd := determine_content_and_mime_error hfw hdet
      cases h
      right
      left
      exact hd.1
    · split at h
      · rename_i e3 hencErr
        cases h
        right
        right
        exact encode_resource_error henc hencErr
      · exact Except.noConfusion h

theorem string_data_append (a b : String) : (a ++ b).data = a.data ++ b.data := by
  cases a
  cases b
  rfl

theorem head_of_append {a b : String} {c : Char} (h : a.data.head? = some c) :
    (a ++ b).data.head? = some c := by
  rw [string_data_append]
  rw [List.head?_append_of_ne_nil]
  · exact h
  · intro hnil
    rw [hnil] at h
    exact Option.noConfusion h

theorem string_ne_of_head_ne {a b : String} {c1 c2 : Char} (h1 : a.data.head? = some c1)
    (h2 : b.data.head? = some c2) (hne : c1 ≠ c2) : a ≠ b := by
  intro he
  rw [he, h2] at h1
  exact hne (Option.some.inj h1).symm

/-! ## Example inputs used by the witnesses -/

/-- Options dict of the spec's first concrete scenario. -/
def example_options_json : Json :=
  .obj [("uri", .str "ui://greeting"),
        ("content", .obj [("type", .str "externalUrl"), ("iframeUrl", .str "https://example.com")]),
        ("encoding", .str "text")]

/-- The validated options of `example_options_json`. -/
def example_options : CreateUIResourceOptions :=
  { uri := "ui://greeting", content := .externalUrl "https://example.com", encoding := "text" }

/-- The resource produced from `example_options_json`. -/
def example_resource : UIResource :=
  { type := "resource",
    resource := .textContents "ui://greeting" "text/uri-list" "https://example.com" }

/-- Options dict of the spec's blob scenario. -/
def example_blob_json : Json :=
  .obj [("uri", .str "ui://x"),
        ("content", .obj [("type", .str "rawHtml"), ("htmlString", .str "<h1>Hi</h1>")]),
        ("encoding", .str "blob")]

/-- The validated options of `example_blob_json`. -/
def example_blob_options : CreateUIResourceOptions :=
  { uri := "ui://x", content := .rawHtml "<h1>Hi</h1>", encoding := "blob" }

/-- The resource produced from `example_blob_json`. -/
def example_blob_resource : UIResource :=
  { type := "resource",
    resource := .blobContents "ui://x" "text/html" "PGgxPkhpPC9oMT4=" }

/-- Options dict with a bad URI (the spec's fourth concrete scenario). -/
def example_bad_uri_json : Json :=
  .obj [("uri", .str "bad://x"),
        ("content", .obj [("type", .str "rawHtml"), ("htmlString", .str "<p/>")]),
        ("encoding", .str "text")]

/-- The validated options of `example_bad_uri_json`. -/
def example_bad_uri_options : CreateUIResourceOptions :=
  { uri := "bad://x", content := .rawHtml "<p/>", encoding := "text" }

/-- Options dict with an empty `htmlString` (the spec's fifth scenario). -/
def example_empty_json : Json :=
  .obj [("uri", .str "ui://x"),
        ("content", .obj [("type", .str "rawHtml"), ("htmlString", .str "")]),
        ("encoding", .str "text")]

/-- The validated options of `example_empty_json`. -/
def example_empty_options : CreateUIResourceOptions :=
  { uri := "ui://x", content := .rawHtml "", encoding := "text" }

/-! ## Claim theorems -/

theorem create_ui_resource_to_body {j : Json} {opts : CreateUIResourceOptions} {res : UIResource}
    (hv : CreateUIResourceOptions.model_validate j = .ok opts)
    (hc : create_ui_resource j = .ok res) : create_ui_resource_body opts = .ok res := by
  unfold create_ui_resource at hc
  rw [hv] at hc
  exact hc

/-- C1: for every options dict accepted by `create_ui_resource`, the
`mimeType` of the produced resource is the pure function of `content.type`
(and, for `remoteDom`, of `framework`) given by `expected_mime_type`:
`text/html` for `rawHtml`, `text/uri-list` for `externalUrl`, and
`application/vnd.mcp-ui.remote-dom+javascript; framework=<framework>` for
`remoteDom`; it depends neither on the encoding nor on the content string. -/
theorem claim_C1_mime_type_pure (j : Json) (opts : CreateUIResourceOptions) (res : UIResource)
    (hv : CreateUIResourceOptions.model_validate j = .ok opts)
    (hc : create_ui_resource j = .ok res) :
    res.resource.mimeType = expected_mime_type opts.content := by
  obtain ⟨-, -, -, u, hu, h | h⟩ :=
    create_ui_resource_body_ok (create_ui_resource_to_body hv hc) <;> rw [h.2] <;> rfl

/-- Witness for C1 at the spec's first concrete scenario. -/
theorem claim_C1_witness :
    CreateUIResourceOptions.model_validate example_options_json = .ok example_options ∧
      create_ui_resource example_options_json = .ok example_resource ∧
      example_resource.resource.mimeType = expected_mime_type example_options.content :=
  ⟨rfl, rfl, claim_C1_mime_type_pure example_options_json example_options example_resource rfl rfl⟩

/-- C2: for every accepted options dict with `encoding = "blob"`, decoding
the produced `blob` field with standard padded base64 decoding followed by
UTF-8 decoding recovers exactly the content string. -/
theorem claim_C2_blob_roundtrip (j : Json) (opts : CreateUIResourceOptions) (res : UIResource)
    (hv : CreateUIResourceOptions.model_validate j = .ok opts)
    (henc : opts.encoding = "blob")
    (hc : create_ui_resource j = .ok res) :
    decodeBlob res.resource.contentData = some (contentString opts.content) := by
  obtain ⟨-, -, -, u, hu, h | h⟩ :=
    create_ui_resource_body_ok (create_ui_resource_to_body hv hc)
  · rw [henc] at h
    exact absurd h.1.symm (by simp)
  · rw [h.2]
    exact decodeBlob_blobOf (contentString opts.content)

/-- Witness for C2 at the spec's blob scenario. -/
theorem claim_C2_witness :
    CreateUIResourceOptions.model_validate example_blob_json = .ok example_blob_options ∧
      example_blob_options.encoding = "blob" ∧
      create_ui_resource example_blob_json = .ok example_blob_resource ∧
      decodeBlob example_blob_resource.resource.contentData =
        some (contentString example_blob_options.content) :=
  ⟨rfl, rfl, rfl,
    claim_C2_blob_roundtrip example_blob_json example_blob_options example_blob_resource
      rfl rfl rfl⟩

/-- Options dict whose uri contains a space in the path: accepted by
validation and by the `ui://` prefix check, but normalized by `AnyUrl`. -/
def example_space_json : Json :=
  .obj [("uri", .str "ui://x/a b"),
        ("content", .obj [("type", .str "rawHtml"), ("htmlString", .str "<p/>")]),
        ("encoding", .str "text")]

/-- Counterexample to C3 as stated: on a valid options value with uri
`ui://x/a b`, `create_ui_resource` succeeds but stores `ui://x/a%20b` — the
space is percent-encoded by `AnyUrl`, so the stored uri is not equal,
character for character, to the supplied one. -/
theorem claim_C3_counterexample :
    CreateUIResourceOptions.model_validate example_space_json =
        .ok { uri := "ui://x/a b", content := .rawHtml "<p/>", encoding := "text" } ∧
      create_ui_resource example_space_json =
        .ok { type := "resource",
              resource := .textContents "ui://x/a%20b" "text/html" "<p/>" } ∧
      ("ui://x/a%20b" : String) ≠ "ui://x/a b" :=
  ⟨rfl, rfl, by decide⟩

/-- C3 (amended): for every accepted options dict, the produced resource
stores the `AnyUrl` (WHATWG) normalization of the supplied uri; in
particular, whenever the supplied uri is already in normalized form (as in
`ui://greeting`), it is preserved character for character. -/
theorem claim_C3_uri_normalized (j : Json) (opts : CreateUIResourceOptions) (res : UIResource)
    (hv : CreateUIResourceOptions.model_validate j = .ok opts)
    (hc : create_ui_resource j = .ok res) :
    pyAnyUrl opts.uri = .ok res.resource.uri ∧
      (pyAnyUrl opts.uri = .ok opts.uri → res.resource.uri = opts.uri) := by
  obtain ⟨-, -, -, u, hu, h | h⟩ :=
    create_ui_resource_body_ok (create_ui_resource_to_body hv hc) <;>
  · rw [h.2]
    simp only [ResourceContents.uri]
    refine ⟨hu, fun hid => ?_⟩
    rw [hu] at hid
    exact Except.ok.inj hid

/-- Witness for the amended C3 at the spec's first concrete scenario, whose
uri is already normalized and therefore preserved. -/
theorem claim_C3_witness :
    CreateUIResourceOptions.model_validate example_options_json = .ok example_options ∧
      create_ui_resource example_options_json = .ok example_resource ∧
      pyAnyUrl example_options.uri = .ok example_resource.resource.uri ∧
      example_resource.resource.uri = example_options.uri :=
  ⟨rfl, rfl,
    (claim_C3_uri_normalized example_options_json example_options example_resource rfl rfl).1,
    (claim_C3_uri_normalized example_options_json example_options example_resource
      rfl rfl).2 rfl⟩

/-- C4: for every accepted options dict with `encoding = "text"`, the
produced resource is in text form and its `text` field is exactly the content
string, with no transformation applied. -/
theorem claim_C4_text_identity (j : Json) (opts : CreateUIResourceOptions) (res : UIResource)
    (hv : CreateUIResourceOptions.model_validate j = .ok opts)
    (henc : opts.encoding = "text")
    (hc : create_ui_resource j = .ok res) :
    res.resource.isText = true ∧ res.resource.contentData = contentString opts.content := by
  obtain ⟨-, -, -, u, hu, h | h⟩ :=
    create_ui_resource_body_ok (create_ui_resource_to_body hv hc)
  · rw [h.2]
    exact ⟨rfl, rfl⟩
  · rw [henc] at h
    exact absurd h.1.symm (by simp)

/-- Witness for C4 at the spec's first concrete scenario. -/
theorem claim_C4_witness :
    CreateUIResourceOptions.model_validate example_options_json = .ok example_options ∧
      example_options.encoding = "text" ∧
      create_ui_resource example_options_json = .ok example_resource ∧
      example_resource.resource.isText = true ∧
      example_resource.resource.contentData = contentString example_options.content :=
  ⟨rfl, rfl, rfl,
    (claim_C4_text_identity example_options_json example_options example_resource
      rfl rfl rfl).1,
    (claim_C4_text_identity example_options_json example_options example_resource
      rfl rfl rfl).2⟩

/-- C5: for every validated options value whose `uri` does not start with
`ui://`, `create_ui_resource` fails with `InvalidURIError`, and the error
message contains the rejected URI verbatim (as a suffix). -/
theorem claim_C5_invalid_uri (j : Json) (opts : CreateUIResourceOptions)
    (hv : CreateUIResourceOptions.model_validate j = .ok opts)
    (huri : pyStartsWith opts.uri "ui://" = false) :
    create_ui_resource j =
        .error (.invalidURIError ("URI must start with \x27ui://\x27 but got: " ++ opts.uri)) ∧
      ∃ p, "URI must start with \x27ui://\x27 but got: " ++ opts.uri = p ++ opts.uri := by
  constructor
  · unfold create_ui_resource
    rw [hv]
    exact create_ui_resource_body_uri_error huri
  · exact ⟨"URI must start with \x27ui://\x27 but got: ", rfl⟩

/-- Witness for C5 at the spec's fourth concrete scenario. -/
theorem claim_C5_witness :
    CreateUIResourceOptions.model_validate example_bad_uri_json = .ok example_bad_uri_options ∧
      pyStartsWith example_bad_uri_options.uri "ui://" = false ∧
      create_ui_resource example_bad_uri_json =
        .error (.invalidURIError
          ("URI must start with \x27ui://\x27 but got: " ++ example_bad_uri_options.uri)) :=
  ⟨rfl, rfl,
    (claim_C5_invalid_uri example_bad_uri_json example_bad_uri_options rfl rfl).1⟩

/-- C6: for every validated options value with a valid URI whose required
content string (`htmlString` / `iframeUrl` / `script`) is empty,
`create_ui_resource` fails with `InvalidContentError`, the message names the
required field, and no resource value is returned. -/
theorem claim_C6_empty_content (j : Json) (opts : CreateUIResourceOptions)
    (hv : CreateUIResourceOptions.model_validate j = .ok opts)
    (huri : pyStartsWith opts.uri "ui://" = true)
    (hempty : contentString opts.content = "") :
    create_ui_resource j = .error (.invalidContentError (empty_field_message opts.content)) ∧
      ∃ p q, empty_field_message opts.content = p ++ (required_field_name opts.content ++ q) := by
  constructor
  · unfold create_ui_resource
    rw [hv]
    exact create_ui_resource_body_empty_error huri hempty
  · cases opts.content with
    | rawHtml hs =>
      exact ⟨"",
        " must be provided as a non-empty string when content.type is \x27rawHtml\x27", rfl⟩
    | externalUrl u =>
      exact ⟨"content.",
        " must be provided as a non-empty string when content.type is \x27externalUrl\x27", rfl⟩
    | remoteDom s f =>
      exact ⟨"content.",
        " must be provided as a non-empty string when content.type is \x27remoteDom\x27", rfl⟩

/-- Witness for C6 at the spec's fifth concrete scenario. -/
theorem claim_C6_witness :
    CreateUIResourceOptions.model_validate example_empty_json = .ok example_empty_options ∧
      pyStartsWith example_empty_options.uri "ui://" = true ∧
      contentString example_empty_options.content = "" ∧
      create_ui_resource example_empty_json =
        .error (.invalidContentError (empty_field_message example_empty_options.content)) :=
  ⟨rfl, rfl, rfl,
    (claim_C6_empty_content example_empty_json example_empty_options rfl rfl rfl).1⟩

/-- C9: for every options dict that passes schema validation, the content
tag is one of the three known tags, the encoding is `text` or `blob`, and the
defensive error branches of `create_ui_resource` (unknown content tag,
unknown encoding) are unreachable: no run on validated input produces their
error values. -/
theorem claim_C9_defensive_unreachable (j : Json) (opts : CreateUIResourceOptions)
    (hv : CreateUIResourceOptions.model_validate j = .ok opts) :
    (opts.content.type = "rawHtml" ∨ opts.content.type = "externalUrl" ∨
        opts.content.type = "remoteDom") ∧
      (opts.encoding = "text" ∨ opts.encoding = "blob") ∧
      (∀ ct, create_ui_resource j ≠
        .error (.invalidContentError ("Invalid content.type specified: " ++ ct))) ∧
      (∀ enc, create_ui_resource j ≠
        .error (.invalidContentError ("Invalid encoding type: " ++ enc))) := by
  obtain ⟨henc, hfw⟩ := model_validate_ok hv
  refine ⟨?_, henc, ?_, ?_⟩
  · cases opts.content with
    | rawHtml hs => exact Or.inl rfl
    | externalUrl u => exact Or.inr (Or.inl rfl)
    | remoteDom s f => exact Or.inr (Or.inr rfl)
  · intro ct heq
    have hbody : create_ui_resource_body opts =
        .error (.invalidContentError ("Invalid content.type specified: " ++ ct)) := by
      unfold create_ui_resource at heq
      rw [hv] at heq
      exact heq
    rcases create_ui_resource_body_error henc hfw hbody with h | h | ⟨m, -, hm⟩
    · exact UIResourceError.noConfusion h
    · have hmsg : "Invalid content.type specified: " ++ ct =
          empty_field_message opts.content := by
        injection h
      cases hcont : opts.content <;> rw [hcont] at hmsg <;>
        exact absurd hmsg
          (string_ne_of_head_ne (head_of_append (by rfl)) (by rfl) (by decide))
    · exact UIResourceError.noConfusion hm
  · intro enc heq
    have hbody : create_ui_resource_body opts =
        .error (.invalidContentError ("Invalid encoding type: " ++ enc)) := by
      unfold create_ui_resource at heq
      rw [hv] at heq
      exact heq
    rcases create_ui_resource_body_error henc hfw hbody with h | h | ⟨m, -, hm⟩
    · exact UIResourceError.noConfusion h
    · have hmsg : "Invalid encoding type: " ++ enc = empty_field_message opts.content := by
        injection h
      cases hcont : opts.content <;> rw [hcont] at hmsg <;>
        exact absurd hmsg
          (string_ne_of_head_ne (head_of_append (by rfl)) (by rfl) (by decide))
    · exact UIResourceError.noConfusion hm

/-- Witness for C9 at the spec's first concrete scenario. -/
theorem claim_C9_witness :
    CreateUIResourceOptions.model_validate example_options_json = .ok example_options ∧
      (example_options.encoding = "text" ∨ example_options.encoding = "blob") ∧
      create_ui_resource example_options_json ≠
        .error (.invalidContentError ("Invalid content.type specified: " ++ "bogusTag")) :=
  ⟨rfl,
    (claim_C9_defensive_unreachable example_options_json example_options rfl).2.1,
    (claim_C9_defensive_unreachable example_options_json example_options rfl).2.2.1 "bogusTag"⟩

theorem alookup_append_not_key (kvs : List (String × Json)) (k : String) (v : Json)
    (key : String) (hne : key ≠ k) :
    alookup (kvs ++ [(k, v)]) key = alookup kvs key := by
  induction kvs with
  | nil => simp [alookup, hne]
  | cons p rest ih =>
    rw [List.cons_append, alookup, alookup]
    split
    · rfl
    · exact ih

/-- C10: adding an unknown extra top-level key to an options dict does not
change the result of `create_ui_resource`: unknown extra fields are silently
ignored by validation rather than rejected. -/
theorem claim_C10_extra_keys_ignored (kvs : List (String × Json)) (k : String) (v : Json)
    (h1 : k ≠ "uri") (h2 : k ≠ "content") (h3 : k ≠ "encoding") :
    create_ui_resource (.obj (kvs ++ [(k, v)])) = create_ui_resource (.obj kvs) := by
  have hval : CreateUIResourceOptions.model_validate (.obj (kvs ++ [(k, v)])) =
      CreateUIResourceOptions.model_validate (.obj kvs) := by
    unfold CreateUIResourceOptions.model_validate
    simp only []
    rw [alookup_append_not_key kvs k v "uri" (Ne.symm h1),
      alookup_append_not_key kvs k v "content" (Ne.symm h2),
      alookup_append_not_key kvs k v "encoding" (Ne.symm h3)]
  unfold create_ui_resource
  rw [hval]

/-- Witness for C10: the spec's first scenario dict with an extra unknown
key behaves exactly like the dict without it, and that dict succeeds. -/
theorem claim_C10_witness :
    create_ui_resource (.obj
        ([("uri", .str "ui://greeting"),
          ("content", .obj [("type", .str "externalUrl"),
            ("iframeUrl", .str "https://example.com")]),
          ("encoding", .str "text")] ++ [("customField", .str "extra")])) =
      create_ui_resource (.obj
        [("uri", .str "ui://greeting"),
          ("content", .obj [("type", .str "externalUrl"),
            ("iframeUrl", .str "https://example.com")]),
          ("encoding", .str "text")]) ∧
    create_ui_resource (.obj
        [("uri", .str "ui://greeting"),
          ("content", .obj [("type", .str "externalUrl"),
            ("iframeUrl", .str "https://example.com")]),
          ("encoding", .str "text")]) = .ok example_resource :=
  ⟨claim_C10_extra_keys_ignored
      [("uri", .str "ui://greeting"),
        ("content", .obj [("type", .str "externalUrl"),
          ("iframeUrl", .str "https://example.com")]),
        ("encoding", .str "text")]
      "customField" (.str "extra") (by decide) (by decide) (by decide),
    rfl⟩

/-! ## Action-result lemmas and claims -/

/-- The required fields of each action-result payload class and the values
pydantic validation reads back from them: `toolName` and `params` for
`tool`, `prompt` for `prompt`, `url` for `link`, `intent` and `params` for
`intent`, `message` for `notify`. -/
def required_payload_fields : UIActionResult → List (String × Json) → Prop
  | .toolCall _ tn ps, pkvs =>
    alookup pkvs "toolName" = some (.str tn) ∧ alookup pkvs "params" = some (.obj ps)
  | .prompt _ p, pkvs => alookup pkvs "prompt" = some (.str p)
  | .link _ u, pkvs => alookup pkvs "url" = some (.str u)
  | .intent _ i ps, pkvs =>
    alookup pkvs "intent" = some (.str i) ∧ alookup pkvs "params" = some (.obj ps)
  | .notification _ m, pkvs => alookup pkvs "message" = some (.str m)

/-- Whether a JSON value is one of the five known `type` discriminators. -/
def isKnownTag : Json → Bool
  | .str s => s = "tool" || s = "prompt" || s = "link" || s = "intent" || s = "notify"
  | _ => false

theorem toolCall_model_validate_char {kvs : List (String × Json)} {r : UIActionResult}
    (h : UIActionResultToolCall.model_validate (.obj kvs) = some r) :
    alookup kvs "type" = some (.str "tool") ∧ r.action_type = "tool" ∧
      ∃ pkvs, alookup kvs "payload" = some (.obj pkvs) ∧ required_payload_fields r pkvs := by
  unfold UIActionResultToolCall.model_validate at h
  repeat' split at h
  all_goals try exact Option.noConfusion h
  all_goals try exact absurd rfl ((by assumption : ∀ k, Json.obj kvs = Json.obj k → False) kvs)
  injections
  subst_vars
  exact ⟨by assumption, rfl, ⟨_, by assumption, by assumption, by assumption⟩⟩

theorem prompt_model_validate_char {kvs : List (String × Json)} {r : UIActionResult}
    (h : UIActionResultPrompt.model_validate (.obj kvs) = some r) :
    alookup kvs "type" = some (.str "prompt") ∧ r.action_type = "prompt" ∧
      ∃ pkvs, alookup kvs "payload" = some (.obj pkvs) ∧ required_payload_fields r pkvs := by
  unfold UIActionResultPrompt.model_validate at h
  repeat' split at h
  all_goals try exact Option.noConfusion h
  all_goals try exact absurd rfl ((by assumption : ∀ k, Json.obj kvs = Json.obj k → False) kvs)
  injections
  subst_vars
  exact ⟨by assumption, rfl, ⟨_, by assumption, by assumption⟩⟩

theorem link_model_validate_char {kvs : List (String × Json)} {r : UIActionResult}
    (h : UIActionResultLink.model_validate (.obj kvs) = some r) :
    alookup kvs "type" = some (.str "link") ∧ r.action_type = "link" ∧
      ∃ pkvs, alookup kvs "payload" = some (.obj pkvs) ∧ required_payload_fields r pkvs := by
  unfold UIActionResultLink.model_validate at h
  repeat' split at h
  all_goals try exact Option.noConfusion h
  all_goals try exact absurd rfl ((by assumption : ∀ k, Json.obj kvs = Json.obj k → False) kvs)
  injections
  subst_vars
  exact ⟨by assumption, rfl, ⟨_, by assumption, by assumption⟩⟩

theorem intent_model_validate_char {kvs : List (String × Json)} {r : UIActionResult}
    (h : UIActionResultIntent.model_validate (.obj kvs) = some r) :
    alookup kvs "type" = some (.str "intent") ∧ r.action_type = "intent" ∧
      ∃ pkvs, alookup kvs "payload" = some (.obj pkvs) ∧ required_payload_fields r pkvs := by
  unfold UIActionResultIntent.model_validate at h
  repeat' split at h
  all_goals try exact Option.noConfusion h
  all_goals try exact absurd rfl ((by assumption : ∀ k, Json.obj kvs = Json.obj k → False) kvs)
  injections
  subst_vars
  exact ⟨by assumption, rfl, ⟨_, by assumption, by assumption, by assumption⟩⟩

theorem notification_model_validate_char {kvs : List (String × Json)} {r : UIActionResult}
    (h : UIActionResultNotification.model_validate (.obj kvs) = some r) :
    alookup kvs "type" = some (.str "notify") ∧ r.action_type = "notify" ∧
      ∃ pkvs, alookup kvs "payload" = some (.obj pkvs) ∧ required_payload_fields r pkvs := by
  unfold UIActionResultNotification.model_validate at h
  repeat' split at h
  all_goals try exact Option.noConfusion h
  all_goals try exact absurd rfl ((by assumption : ∀ k, Json.obj kvs = Json.obj k → False) kvs)
  injections
  subst_vars
  exact ⟨by assumption, rfl, ⟨_, by assumption, by assumption⟩⟩

theorem deserialize_ok_char {j : Json} {r : UIActionResult}
    (h : deserialize_ui_action_result (some j) = .ok r) :
    ∃ kvs pkvs, j = .obj kvs ∧ alookup kvs "type" = some (.str r.action_type) ∧
      isKnownTag (.str r.action_type) = true ∧
      alookup kvs "payload" = some (.obj pkvs) ∧ required_payload_fields r pkvs := by
  unfold deserialize_ui_action_result at h
  repeat' split at h
  all_goals injections
  all_goals subst_vars
  · obtain ⟨hty, hat, pkvs, hpl, hreq⟩ := toolCall_model_validate_char (by assumption)
    exact ⟨_, pkvs, rfl, by rw [hat]; exact hty, by rw [hat]; rfl, hpl, hreq⟩
  · obtain ⟨hty, hat, pkvs, hpl, hreq⟩ := prompt_model_validate_char (by assumption)
    exact ⟨_, pkvs, rfl, by rw [hat]; exact hty, by rw [hat]; rfl, hpl, hreq⟩
  · obtain ⟨hty, hat, pkvs, hpl, hreq⟩ := link_model_validate_char (by assumption)
    exact ⟨_, pkvs, rfl, by rw [hat]; exact hty, by rw [hat]; rfl, hpl, hreq⟩
  · obtain ⟨hty, hat, pkvs, hpl, hreq⟩ := intent_model_validate_char (by assumption)
    exact ⟨_, pkvs, rfl, by rw [hat]; exact hty, by rw [hat]; rfl, hpl, hreq⟩
  · obtain ⟨hty, hat, pkvs, hpl, hreq⟩ := notification_model_validate_char (by assumption)
    exact ⟨_, pkvs, rfl, by rw [hat]; exact hty, by rw [hat]; rfl, hpl, hreq⟩

/-- C7: for each of the five action-result variants as produced by its
constructor (with arbitrary payload fields, `messageId` defaulted to absent),
deserializing the serialized JSON form yields a value equal to the
original. -/
theorem claim_C7_serialization_roundtrip (tool_name : String)
    (tool_params : List (String × Json)) (p u i : String)
    (intent_params : List (String × Json)) (m : String) :
    deserialize_ui_action_result (some (serialize_ui_action_result
          (ui_action_result_tool_call tool_name tool_params))) =
        .ok (ui_action_result_tool_call tool_name tool_params) ∧
      deserialize_ui_action_result (some (serialize_ui_action_result
          (ui_action_result_prompt p))) = .ok (ui_action_result_prompt p) ∧
      deserialize_ui_action_result (some (serialize_ui_action_result
          (ui_action_result_link u))) = .ok (ui_action_result_link u) ∧
      deserialize_ui_action_result (some (serialize_ui_action_result
          (ui_action_result_intent i intent_params))) =
        .ok (ui_action_result_intent i intent_params) ∧
      deserialize_ui_action_result (some (serialize_ui_action_result
          (ui_action_result_notification m))) = .ok (ui_action_result_notification m) :=
  ⟨rfl, rfl, rfl, rfl, rfl⟩

/-- C8: `deserialize_ui_action_result` reads the `type` discriminator first
and fails with a distinguishable error value rather than returning a value on
every malformed input: malformed JSON, any unknown `type` value (string or
not), and any payload missing a required field of the declared variant.  Every
successful result comes from a dict whose `type` is the returned variant's
known tag and whose payload carries all of that variant's required fields, so
each of those failure families can never return a value. -/
theorem claim_C8_deserialize_errors :
    deserialize_ui_action_result none = .error "Invalid JSON" ∧
      (∀ j r, deserialize_ui_action_result (some j) = .ok r →
        ∃ kvs pkvs, j = .obj kvs ∧ alookup kvs "type" = some (.str r.action_type) ∧
          isKnownTag (.str r.action_type) = true ∧
          alookup kvs "payload" = some (.obj pkvs) ∧ required_payload_fields r pkvs) ∧
      (∀ kvs t, alookup kvs "type" = some t → isKnownTag t = false →
        ∃ e, deserialize_ui_action_result (some (.obj kvs)) = .error e) ∧
      (∀ kvs pkvs, alookup kvs "type" = some (.str "tool") →
        alookup kvs "payload" = some (.obj pkvs) →
        alookup pkvs "toolName" = none ∨ alookup pkvs "params" = none →
        ∃ e, deserialize_ui_action_result (some (.obj kvs)) = .error e) ∧
      (∀ kvs pkvs, alookup kvs "type" = some (.str "prompt") →
        alookup kvs "payload" = some (.obj pkvs) → alookup pkvs "prompt" = none →
        ∃ e, deserialize_ui_action_result (some (.obj kvs)) = .error e) ∧
      (∀ kvs pkvs, alookup kvs "type" = some (.str "link") →
        alookup kvs "payload" = some (.obj pkvs) → alookup pkvs "url" = none →
        ∃ e, deserialize_ui_action_result (some (.obj kvs)) = .error e) ∧
      (∀ kvs pkvs, alookup kvs "type" = some (.str "intent") →
        alookup kvs "payload" = some (.obj pkvs) →
        alookup pkvs "intent" = none ∨ alookup pkvs "params" = none →
        ∃ e, deserialize_ui_action_result (some (.obj kvs)) = .error e) ∧
      (∀ kvs pkvs, alookup kvs "type" = some (.str "notify") →
        alookup kvs "payload" = some (.obj pkvs) → alookup pkvs "message" = none →
        ∃ e, deserialize_ui_action_result (some (.obj kvs)) = .error e) := by
  refine ⟨rfl, fun j r h => deserialize_ok_char h, ?_, ?_, ?_, ?_, ?_, ?_⟩
  · intro kvs t h1 hunk
    cases hres : deserialize_ui_action_result (some (.obj kvs)) with
    | error e => exact ⟨e, rfl⟩
    | ok r =>
      exfalso
      obtain ⟨kvs2, pkvs2, hj, hty, hkn, -, -⟩ := deserialize_ok_char hres
      injection hj with hj2
      subst hj2
      rw [h1] at hty
      rw [Option.some.inj hty] at hunk
      rw [hunk] at hkn
      exact Bool.noConfusion hkn
  · intro kvs pkvs h1 h2 hmiss
    cases hres : deserialize_ui_action_result (some (.obj kvs)) with
    | error e => exact ⟨e, rfl⟩
    | ok r =>
      exfalso
      obtain ⟨kvs2, pkvs2, hj, hty, -, hpl, hreq⟩ := deserialize_ok_char hres
      injection hj with hj2
      subst hj2
      rw [h1] at hty
      have hat : r.action_type = "tool" :=
        (Json.str.inj (Option.some.inj hty)).symm
      rw [h2] at hpl
      have hpk : pkvs2 = pkvs := (Json.obj.inj (Option.some.inj hpl)).symm
      subst hpk
      cases r with
      | toolCall mid tn ps =>
        rcases hmiss with hm | hm
        · rw [hreq.1] at hm
          exact Option.noConfusion hm
        · rw [hreq.2] at hm
          exact Option.noConfusion hm
      | prompt mid p => simp [UIActionResult.action_type] at hat
      | link mid u => simp [UIActionResult.action_type] at hat
      | intent mid i ps => simp [UIActionResult.action_type] at hat
      | notification mid m => simp [UIActionResult.action_type] at hat
  · intro kvs pkvs h1 h2 hm
    cases hres : deserialize_ui_action_result (some (.obj kvs)) with
    | error e => exact ⟨e, rfl⟩
    | ok r =>
      exfalso
      obtain ⟨kvs2, pkvs2, hj, hty, -, hpl, hreq⟩ := deserialize_ok_char hres
      injection hj with hj2
      subst hj2
      rw [h1] at hty
      have hat : r.action_type = "prompt" :=
        (Json.str.inj (Option.some.inj hty)).symm
      rw [h2] at hpl
      have hpk : pkvs2 = pkvs := (Json.obj.inj (Option.some.inj hpl)).symm
      subst hpk
      cases r with
      | prompt mid p =>
        rw [hreq] at hm
        exact Option.noConfusion hm
      | toolCall mid tn ps => simp [UIActionResult.action_type] at hat
      | link mid u => simp [UIActionResult.action_type] at hat
      | intent mid i ps => simp [UIActionResult.action_type] at hat
      | notification mid m => simp [UIActionResult.action_type] at hat
  · intro kvs pkvs h1 h2 hm
    cases hres : deserialize_ui_action_result (some (.obj kvs)) with
    | error e => exact ⟨e, rfl⟩
    | ok r =>
      exfalso
      obtain ⟨kvs2, pkvs2, hj, hty, -, hpl, hreq⟩ := deserialize_ok_char hres
      injection hj with hj2
      subst hj2
      rw [h1] at hty
      have hat : r.action_type = "link" :=
        (Json.str.inj (Option.some.inj hty)).symm
      rw [h2] at hpl
      have hpk : pkvs2 = pkvs := (Json.obj.inj (Option.some.inj hpl)).symm
      subst hpk
      cases r with
      | link mid u =>
        rw [hreq] at hm
        exact Option.noConfusion hm
      | toolCall mid tn ps => simp [UIActionResult.action_type] at hat
      | prompt mid p => simp [UIActionResult.action_type] at hat
      | intent mid i ps => simp [UIActionResult.action_type] at hat
      | notification mid m => simp [UIActionResult.action_type] at hat
  · intro kvs pkvs h1 h2 hmiss
    cases hres : deserialize_ui_action_result (some (.obj kvs)) with
    | error e => exact ⟨e, rfl⟩
    | ok r =>
      exfalso
      obtain ⟨kvs2, pkvs2, hj, hty, -, hpl, hreq⟩ := deserialize_ok_char hres
      injection hj with hj2
      subst hj2
      rw [h1] at hty
      have hat : r.action_type = "intent" :=
        (Json.str.inj (Option.some.inj hty)).symm
      rw [h2] at hpl
      have hpk : pkvs2 = pkvs := (Json.obj.inj (Option.some.inj hpl)).symm
      subst hpk
      cases r with
      | intent mid i ps =>
        rcases hmiss with hm | hm
        · rw [hreq.1] at hm
          exact Option.noConfusion hm
        · rw [hreq.2] at hm
          exact Option.noConfusion hm
      | toolCall mid tn ps => simp [UIActionResult.action_type] at hat
      | prompt mid p => simp [UIActionResult.action_type] at hat
      | link mid u => simp [UIActionResult.action_type] at hat
      | notification mid m => simp [UIActionResult.action_type] at hat
  · intro kvs pkvs h1 h2 hm
    cases hres : deserialize_ui_action_result (some (.obj kvs)) with
    | error e => exact ⟨e, rfl⟩
    | ok r =>
      exfalso
      obtain ⟨kvs2, pkvs2, hj, hty, -, hpl, hreq⟩ := deserialize_ok_char hres
      injection hj with hj2
      subst hj2
      rw [h1] at hty
      have hat : r.action_type = "notify" :=
        (Json.str.inj (Option.some.inj hty)).symm
      rw [h2] at hpl
      have hpk : pkvs2 = pkvs := (Json.obj.inj (Option.some.inj hpl)).symm
      subst hpk
      cases r with
      | notification mid m =>
        rw [hreq] at hm
        exact Option.noConfusion hm
      | toolCall mid tn ps => simp [UIActionResult.action_type] at hat
      | prompt mid p => simp [UIActionResult.action_type] at hat
      | link mid u => simp [UIActionResult.action_type] at hat
      | intent mid i ps => simp [UIActionResult.action_type] at hat

/-- Witness for C8: malformed JSON, an unknown tag, a `tool` payload missing
`params`, and a successful input whose characterization the theorem
delivers. -/
theorem claim_C8_witness :
    deserialize_ui_action_result none = .error "Invalid JSON" ∧
      (∃ e, deserialize_ui_action_result (some (.obj [("type", .str "bogus"),
        ("payload", .null)])) = .error e) ∧
      (∃ e, deserialize_ui_action_result (some (.obj [("type", .str "tool"),
        ("payload", .obj [("toolName", .str "x")])])) = .error e) ∧
      (∃ kvs pkvs, (Json.obj [("messageId", Json.null), ("type", .str "prompt"),
          ("payload", .obj [("prompt", .str "hi")])]) = .obj kvs ∧
        alookup kvs "type" =
          some (.str (UIActionResult.prompt none "hi").action_type) ∧
        isKnownTag (.str (UIActionResult.prompt none "hi").action_type) = true ∧
        alookup kvs "payload" = some (.obj pkvs) ∧
        required_payload_fields (UIActionResult.prompt none "hi") pkvs) :=
  ⟨claim_C8_deserialize_errors.1,
    claim_C8_deserialize_errors.2.2.1 [("type", .str "bogus"), ("payload", .null)]
      (.str "bogus") rfl rfl,
    claim_C8_deserialize_errors.2.2.2.1 [("type", .str "tool"),
      ("payload", .obj [("toolName", .str "x")])] [("toolName", .str "x")]
      rfl rfl (Or.inr rfl),
    claim_C8_deserialize_errors.2.1 (Json.obj [("messageId", Json.null),
      ("type", .str "prompt"), ("payload", .obj [("prompt", .str "hi")])])
      (UIActionResult.prompt none "hi") rfl⟩
